import Mathlib

/-!
A shallow embedding of the data-normalization, statistics-aggregation and
grouping pipeline of the `forms-email-automation` repository
(`simple_forms_automation.py` and `weekly_instructor_reports.py`),
together with theorems settling the frozen claims about it.

Modelling conventions:
* A parsed timestamp (`pandas` datetime at minute resolution, which is the
  resolution of the primary format `%m/%d/%Y %H:%M`) is a `Nat`: minutes
  since 1970-01-01 00:00 in the proleptic Gregorian calendar.  The model
  covers timestamps from 1970 on (the repository processes 2024+ meeting
  data; `pandas.Timestamp` itself is bounded to 1677-2262).
* The calendar date of a timestamp is its day number `t / 1440`.
* `DataFrame` keeps the validated rows plus flags recording which optional
  physical columns were present in the sheet, mirroring the
  `col in df.columns` checks of the source.
* Statistics dictionaries are insertion-ordered association lists, mirroring
  Python `dict` construction order.
-/

/-! ## Calendar arithmetic (proleptic Gregorian, as used by pandas datetimes) -/

def isLeap (y : Nat) : Bool :=
  (y % 4 == 0 && y % 100 != 0) || y % 400 == 0

def daysInMonth (y m : Nat) : Nat :=
  if m = 2 then (if isLeap y then 29 else 28)
  else if m = 4 || m = 6 || m = 9 || m = 11 then 30
  else 31

/-- Days in the months of year `y` strictly before month `m`. -/
def daysBeforeMonth (y m : Nat) : Nat :=
  ((List.range (m - 1)).map (fun i => daysInMonth y (i + 1))).sum

/-- Day count of `y-m-d` since 0001-01-01 (rata die, day 0 = 0001-01-01). -/
def rataDie (y m d : Nat) : Nat :=
  365 * (y - 1) + (y - 1) / 4 - (y - 1) / 100 + (y - 1) / 400 + daysBeforeMonth y m + (d - 1)

/-- Day count of `y-m-d` since 1970-01-01; only used for `y ≥ 1970`. -/
def daysSince1970 (y m d : Nat) : Nat :=
  rataDie y m d - rataDie 1970 1 1

/-- Inverse of `daysSince1970`: civil date `(y, m, d)` of a day count since
1970-01-01 (the standard era-based algorithm). -/
def civilFromDays (days : Nat) : Nat × Nat × Nat :=
  let z := days + 719468
  let era := z / 146097
  let doe := z % 146097
  let yoe := (doe - doe / 1460 + doe / 36524 - doe / 146096) / 365
  let y := yoe + era * 400
  let doy := doe - (365 * yoe + yoe / 4 - yoe / 100)
  let mp := (5 * doy + 2) / 153
  let d := doy - (153 * mp + 2) / 5 + 1
  let m := if mp < 10 then mp + 3 else mp - 9
  (if m ≤ 2 then y + 1 else y, m, d)

def monthName (m : Nat) : String :=
  match m with
  | 1 => "January" | 2 => "February" | 3 => "March" | 4 => "April"
  | 5 => "May" | 6 => "June" | 7 => "July" | 8 => "August"
  | 9 => "September" | 10 => "October" | 11 => "November" | 12 => "December"
  | _ => ""

def pad2 (n : Nat) : String :=
  if n < 10 then "0" ++ toString n else toString n

/-- `strftime('%B %d, %Y')` of a timestamp (minutes since 1970). -/
def formatDate (t : Nat) : String :=
  let c := civilFromDays (t / 1440)
  monthName c.2.1 ++ " " ++ pad2 c.2.2 ++ ", " ++ toString c.1

/-- Calendar date (day number) of a timestamp, i.e. `.dt.date` / `.date()`. -/
def dateOfMinutes (t : Nat) : Nat := t / 1440

/-! ## Date-time string parsing

`strictParse` models `pd.to_datetime(s, format='%m/%d/%Y %H:%M', errors='coerce')`
applied to one value: a strptime-style full match of the fixed primary format.
`flexParse` models the subsequent `pd.to_datetime(s, errors='coerce')` retry:
a lenient parser (library code, outside this repository) accepting the primary
format as well as ISO-style date-times, with or without seconds and with a
date-only form defaulting to midnight.  The claims proved below depend only on
strict-before-lenient sequencing, totality, and the primary format itself, not
on the exact format family the lenient parser accepts. -/

/-- Drop leading whitespace. -/
def dropWs : List Char → List Char
  | [] => []
  | c :: cs => if c.isWhitespace then dropWs cs else c :: cs

/-- Python `str.strip()`: drop leading and trailing whitespace. -/
def trimStr (s : String) : String :=
  String.mk ((dropWs (dropWs s.data).reverse).reverse)

def takeDigits : List Char → List Char × List Char
  | [] => ([], [])
  | c :: cs =>
    if c.isDigit then
      let p := takeDigits cs
      (c :: p.1, p.2)
    else ([], c :: cs)

def natOfDigits (ds : List Char) : Nat :=
  ds.foldl (fun n c => n * 10 + (c.toNat - 48)) 0

/-- Validity of the three digit groups of `%m/%d/%Y`. -/
def checkDate (mds dds yds : List Char) : Bool :=
  decide (1 ≤ mds.length) && decide (mds.length ≤ 2) &&
  decide (1 ≤ dds.length) && decide (dds.length ≤ 2) &&
  decide (1 ≤ yds.length) && decide (yds.length ≤ 4) &&
  decide (1 ≤ natOfDigits mds) && decide (natOfDigits mds ≤ 12) &&
  decide (1 ≤ natOfDigits dds) &&
  decide (natOfDigits dds ≤ daysInMonth (natOfDigits yds) (natOfDigits mds)) &&
  decide (1970 ≤ natOfDigits yds) && decide (natOfDigits yds ≤ 2262)

/-- Parse a leading `%m/%d/%Y` date, returning its day number since 1970 and
the unconsumed remainder of the input. -/
def parseDateC (cs : List Char) : Option (Nat × List Char) :=
  match takeDigits cs with
  | (mds, c1 :: r1) =>
    if c1 = '/' then
      match takeDigits r1 with
      | (dds, c2 :: r2) =>
        if c2 = '/' then
          match takeDigits r2 with
          | (yds, rest) =>
            if checkDate mds dds yds then
              some (daysSince1970 (natOfDigits yds) (natOfDigits mds) (natOfDigits dds), rest)
            else none
        else none
      | (_, []) => none
    else none
  | (_, []) => none

/-- Parse a leading `%H:%M` time, returning minutes past midnight and the
unconsumed remainder. -/
def parseTimeC (cs : List Char) : Option (Nat × List Char) :=
  match takeDigits cs with
  | (hds, ':' :: r1) =>
    match takeDigits r1 with
    | (mds, rest) =>
      if decide (1 ≤ hds.length) && decide (hds.length ≤ 2) &&
         decide (1 ≤ mds.length) && decide (mds.length ≤ 2) &&
         decide (natOfDigits hds ≤ 23) && decide (natOfDigits mds ≤ 59) then
        some (natOfDigits hds * 60 + natOfDigits mds, rest)
      else none
  | _ => none

/-- Strict parse with the fixed primary format `%m/%d/%Y %H:%M`: the whole
string must match.  Result in minutes since 1970. -/
def strictParseC (cs : List Char) : Option Nat :=
  match parseDateC cs with
  | some (days, ' ' :: r) =>
    match parseTimeC r with
    | some (mins, []) => some (days * 1440 + mins)
    | _ => none
  | _ => none

/-- Parse a leading ISO `%Y-%m-%d` date. -/
def parseIsoDateC (cs : List Char) : Option (Nat × List Char) :=
  match takeDigits cs with
  | (yds, '-' :: r1) =>
    match takeDigits r1 with
    | (mds, '-' :: r2) =>
      match takeDigits r2 with
      | (dds, rest) =>
        if checkDate mds dds yds && decide (yds.length = 4) then
          some (daysSince1970 (natOfDigits yds) (natOfDigits mds) (natOfDigits dds), rest)
        else none
    | _ => none
  | _ => none

/-- Lenient time: `%H:%M` optionally followed by `:%S`; seconds are floored
away (minute resolution). -/
def flexTimeC (cs : List Char) : Option Nat :=
  match parseTimeC cs with
  | some (mins, []) => some mins
  | some (mins, ':' :: r) =>
    match takeDigits r with
    | (sds, []) =>
      if decide (1 ≤ sds.length) && decide (sds.length ≤ 2) && decide (natOfDigits sds ≤ 59) then
        some mins
      else none
    | _ => none
  | _ => none

/-- Model of the lenient `pd.to_datetime(_, errors='coerce')` retry. -/
def flexParseC (cs : List Char) : Option Nat :=
  let dres :=
    match parseDateC cs with
    | some r => some r
    | none => parseIsoDateC cs
  match dres with
  | some (days, []) => some (days * 1440)
  | some (days, ' ' :: r) =>
    match flexTimeC r with
    | some mins => some (days * 1440 + mins)
    | none => none
  | _ => none

/-- Row-level combined parse: the strict primary-format parse is attempted
first; the lenient parse runs only when the strict parse failed (the
`null_mask` retry of `load_data`). -/
def parseDatetimeC (cs : List Char) : Option Nat :=
  match strictParseC cs with
  | some t => some t
  | none => flexParseC cs

def strictParse (s : String) : Option Nat := strictParseC s.data

def flexParse (s : String) : Option Nat := flexParseC s.data

def parseDatetime (s : String) : Option Nat := parseDatetimeC s.data

/-! ## MeetingRecord and DataFrame -/

/-- One cleaned observation: a row that survived normalization.  String
fields default to `""` when the physical column is absent. -/
structure MeetingRecord where
  datetime : Nat
  firstName : String
  lastName : String
  course : String
  meetingType : String
  topic : String
deriving DecidableEq, Repr

/-- The validated record set plus which optional physical columns were
present in the raw sheet (mirrors the `col in df.columns` checks). -/
structure DataFrame where
  rows : List MeetingRecord
  hasMeetingType : Bool
  hasCourse : Bool
  hasNames : Bool
deriving DecidableEq, Repr

def fullName (r : MeetingRecord) : String :=
  r.firstName ++ " " ++ r.lastName

/-! ## load_data: normalization of raw sheet values (simple_forms_automation.py) -/

def idxOf : List String → String → Option Nat
  | [], _ => none
  | h :: t, s => if h = s then some 0 else (idxOf t s).map (· + 1)

/-- Cell of `row` under header `name`, `""` when absent (rectangular sheets). -/
def getCol (headers row : List String) (name : String) : String :=
  match idxOf headers name with
  | some i => row.getD i ""
  | none => ""

/-- The literal tokens treated as an empty date (lines 103-104 of
`simple_forms_automation.py`; the `len > 0` check is subsumed by `""`). -/
def emptyTokens : List String := ["", "nan", "None", "NaN"]

/-- Drop rows whose (trimmed) date cell is empty or an empty-token. -/
def cleanedRows (headers : List String) (dataRows : List (List String)) : List (List String) :=
  dataRows.filter (fun row =>
    let d := trimStr (getCol headers row "date")
    !(emptyTokens.contains d))

/-- `date + ' ' + time.replace('', '00:00')`: combine with a single space,
substituting `00:00` for an (exactly) empty time value. -/
def combineDT (d t : String) : String :=
  d ++ " " ++ (if t = "" then "00:00" else t)

/-- The combined date-time string of a row (both cells trimmed, line 99-100). -/
def rowCombined (headers row : List String) : String :=
  combineDT (trimStr (getCol headers row "date")) (trimStr (getCol headers row "time"))

def mkRecord (headers row : List String) (t : Nat) : MeetingRecord :=
  { datetime := t
    firstName := getCol headers row "Student First Name"
    lastName := getCol headers row "Student Last Name"
    course := getCol headers row "Course Section"
    meetingType := getCol headers row "Meeting Type"
    topic := getCol headers row "Topic" }

def parsedRows (headers : List String) (dataRows : List (List String)) :
    List (List String × Option Nat) :=
  (cleanedRows headers dataRows).map
    (fun row => (row, parseDatetimeC (rowCombined headers row).data))

def validRecords (headers : List String) (dataRows : List (List String)) : List MeetingRecord :=
  (parsedRows headers dataRows).filterMap (fun p => p.2.map (mkRecord headers p.1))

/-- `invalid_dates`: rows whose value failed both the strict and the lenient
parse; they are dropped and counted. -/
def rejectedCount (headers : List String) (dataRows : List (List String)) : Nat :=
  ((parsedRows headers dataRows).filter (fun p => p.2.isNone)).length

/-- The distinguishable outcomes of `load_data`, one per logged branch:
`noDataRows` = the `len(values) < 2` warning path, `missingColumn` = the
missing date/time column error paths, `noValidDates` = the
`valid_dates == 0` error path, `ok` = records plus the rejected-row count. -/
inductive LoadResult
  | noDataRows
  | missingColumn
  | noValidDates
  | ok (records : List MeetingRecord) (rejected : Nat)
deriving DecidableEq, Repr

def LoadResult.records : LoadResult → List MeetingRecord
  | .ok rs _ => rs
  | _ => []

/-- Core of `MeetingFormsReporter.load_data` on fetched sheet values (first
row = header).  Total: every branch of the source returns a value; no input
raises. -/
def load_data : List (List String) → LoadResult
  | [] => .noDataRows
  | headers :: dataRows =>
    if (headers :: dataRows).length < 2 then .noDataRows
    else if (idxOf headers "date").isNone then .missingColumn
    else if (idxOf headers "time").isNone then .missingColumn
    else if (validRecords headers dataRows).length = 0 then .noValidDates
    else .ok (validRecords headers dataRows) (rejectedCount headers dataRows)

/-! ## generate_statistics: the Aggregator (simple_forms_automation.py) -/

def minList : List Nat → Nat
  | [] => 0
  | x :: xs => xs.foldl Nat.min x

def maxList : List Nat → Nat
  | [] => 0
  | x :: xs => xs.foldl Nat.max x

/-- First-occurrence-preserving deduplication (`pandas` `unique`/`nunique`). -/
def uniqueFirstGo [DecidableEq α] : List α → List α → List α
  | [], _ => []
  | x :: xs, seen => if x ∈ seen then uniqueFirstGo xs seen else x :: uniqueFirstGo xs (x :: seen)

def uniqueFirst [DecidableEq α] (l : List α) : List α := uniqueFirstGo l []

def distinctCount [DecidableEq α] (l : List α) : Nat := (uniqueFirst l).length

def countVal [DecidableEq α] (l : List α) (x : α) : Nat :=
  l.countP (fun y => decide (y = x))

/-- Stable insertion keeping descending counts (earlier elements stay first
among equal counts). -/
def insertByDesc (key : α → Nat) (p : α) : List α → List α
  | [] => [p]
  | q :: rest => if key p ≤ key q then q :: insertByDesc key p rest else p :: q :: rest

def sortByDesc (key : α → Nat) : List α → List α
  | [] => []
  | p :: rest => insertByDesc key p (sortByDesc key rest)

/-- `value_counts()`: distinct values with their counts, descending by count. -/
def valueCounts (l : List String) : List (String × Nat) :=
  sortByDesc (fun p => p.2) ((uniqueFirst l).map (fun v => (v, countVal l v)))

/-- `groupby(hour).size().idxmax()`: the hour with the most records, lowest
hour first on ties (groupby keys are sorted ascending, idxmax takes the first
maximum). -/
def peakHour (rows : List MeetingRecord) : Nat :=
  let hours := rows.map (fun r => r.datetime % 1440 / 60)
  (List.range 24).foldl (fun best h => if countVal hours best < countVal hours h then h else best) 0

/-- A value stored in the statistics dictionary. -/
inductive StatValue
  | nat (n : Nat)
  | rat (q : Rat)
  | str (s : String)
  | dt (t : Nat)
  | dict (d : List (String × Nat))
deriving DecidableEq, Repr

/-- Lookup in an insertion-ordered statistics dictionary. -/
def statGet (k : String) : List (String × StatValue) → Option StatValue
  | [] => none
  | (k', v) :: rest => if k' = k then some v else statGet k rest

/-- `MeetingFormsReporter.generate_statistics`, with the ambient clock
(`datetime.now()`) made an explicit parameter `now` (minutes since 1970).
The result is the insertion-ordered dictionary the source builds. -/
def generate_statistics (now : Nat) (df : DataFrame) : List (String × StatValue) :=
  if df.rows.isEmpty then
    [("total_meetings", .nat 0),
     ("semester_total", .nat 0),
     ("today_meetings", .nat 0),
     ("yesterday_meetings", .nat 0),
     ("this_week_meetings", .nat 0),
     ("last_7_days", .nat 0),
     ("avg_daily_meetings", .nat 0),
     ("avg_weekly_meetings", .nat 0),
     ("peak_hour", .str "N/A"),
     ("most_recent", .str "No data"),
     ("popular_meeting_type", .str "N/A"),
     ("active_courses", .nat 0),
     ("unique_students", .nat 0),
     ("semester_start", .str "N/A"),
     ("days_active", .nat 0)]
  else
    let ts := df.rows.map MeetingRecord.datetime
    let semesterStart := minList ts
    let semesterEnd := maxList ts
    let daysInSemester := (semesterEnd - semesterStart) / 1440 + 1
    let dnow := dateOfMinutes now
    let weekAgo := now - 7 * 1440
    [("semester_total", .nat df.rows.length),
     ("semester_start", .str (formatDate semesterStart)),
     ("semester_end", .str (formatDate semesterEnd)),
     ("days_active", .nat daysInSemester),
     ("total_meetings", .nat df.rows.length),
     ("today_meetings", .nat (df.rows.countP (fun r => decide (dateOfMinutes r.datetime = dnow)))),
     ("yesterday_meetings", .nat (df.rows.countP (fun r => decide (dateOfMinutes r.datetime = dnow - 1)))),
     ("this_week_meetings", .nat (df.rows.countP (fun r => decide (weekAgo ≤ r.datetime)))),
     ("last_7_days", .nat (df.rows.countP (fun r => decide (weekAgo ≤ r.datetime)))),
     ("avg_daily_meetings", .rat (if 0 < daysInSemester then (df.rows.length : Rat) / (daysInSemester : Rat) else 0)),
     ("avg_weekly_meetings", .rat (if 0 < daysInSemester then (df.rows.length : Rat) / ((daysInSemester : Rat) / 7) else 0)),
     ("peak_hour", if 0 < df.rows.length then .nat (peakHour df.rows) else .str "N/A"),
     ("most_recent", if 0 < df.rows.length then .dt semesterEnd else .str "No data")]
    ++ (if df.hasMeetingType && !df.rows.isEmpty then
          [("popular_meeting_type",
            match valueCounts (df.rows.map MeetingRecord.meetingType) with
            | [] => .str "N/A"
            | (v, _) :: _ => .str v),
           ("meeting_type_breakdown", .dict (valueCounts (df.rows.map MeetingRecord.meetingType)))]
        else
          [("popular_meeting_type", .str "N/A"),
           ("meeting_type_breakdown", .dict [])])
    ++ (if df.hasCourse then
          [("active_courses", .nat (distinctCount (df.rows.map MeetingRecord.course))),
           ("course_breakdown", .dict (valueCounts (df.rows.map MeetingRecord.course)))]
        else
          [("active_courses", .nat 0),
           ("course_breakdown", .dict [])])
    ++ (if df.hasNames then
          [("unique_students", .nat (distinctCount (df.rows.map fullName)))]
        else
          [("unique_students", .nat 0)])

/-! ## Grouping by course section (weekly_instructor_reports.py) -/

structure InstructorInfo where
  instructor : String
  email : String
  course_name : String
deriving DecidableEq, Repr

/-- `self.instructor_mappings.get(course_section.strip(), None)`. -/
def getInstructorForSection (mappings : List (String × InstructorInfo)) (s : String) :
    Option InstructorInfo :=
  (mappings.find? (fun p => p.1 == trimStr s)).map (fun p => p.2)

/-- The per-instructor group bundle built by `group_by_course_section`. -/
structure GroupBundle where
  email : String
  course_name : String
  sections : List String
  data : List MeetingRecord
  total_meetings : Nat
  unique_students : Nat
deriving DecidableEq, Repr

def lookupB (k : String) : List (String × GroupBundle) → Option GroupBundle
  | [] => none
  | (k', b) :: rest => if k' = k then some b else lookupB k rest

/-- Number of distinct `(first_name, last_name)` pairs
(`len(df.groupby([first, last]))`). -/
def distinctPairs (data : List MeetingRecord) : Nat :=
  distinctCount (data.map (fun r => (r.firstName, r.lastName)))

/-- `df[df[course_col] == section]`: the records of one section, in order. -/
def secRecords (rows : List MeetingRecord) (s : String) : List MeetingRecord :=
  rows.filter (fun r => decide (r.course = s))

/-- Appending a section's data to a bundle, recomputing the running totals
(lines 247-257). -/
def extendBundle (s : String) (secData : List MeetingRecord) (b : GroupBundle) : GroupBundle :=
  let newData := b.data ++ secData
  { b with
    sections := b.sections ++ [s]
    data := newData
    total_meetings := newData.length
    unique_students := distinctPairs newData }

/-- The fresh bundle created when an instructor is first seen (lines 236-244). -/
def newBundle (info : InstructorInfo) : GroupBundle :=
  { email := info.email, course_name := info.course_name
    sections := [], data := [], total_meetings := 0, unique_students := 0 }

/-- In-place update of an insertion-ordered dict: modify the existing entry
or append a new one. -/
def upsertB (k : String) (f : GroupBundle → GroupBundle) (init : GroupBundle) :
    List (String × GroupBundle) → List (String × GroupBundle)
  | [] => [(k, f init)]
  | (k', b) :: rest =>
    if k' = k then (k', f b) :: rest else (k', b) :: upsertB k f init rest

/-- Processing one course section: skip empty and unconfigured sections,
otherwise merge the section's records into its instructor's bundle. -/
def groupStep (mappings : List (String × InstructorInfo)) (rows : List MeetingRecord)
    (acc : List (String × GroupBundle)) (s : String) : List (String × GroupBundle) :=
  if s = "" then acc
  else
    match getInstructorForSection mappings s with
    | none => acc
    | some info => upsertB info.instructor (extendBundle s (secRecords rows s)) (newBundle info) acc

/-- The grouping loop over a given section-processing order. -/
def groupBySections (mappings : List (String × InstructorInfo)) (rows : List MeetingRecord)
    (sections : List String) : List (String × GroupBundle) :=
  sections.foldl (groupStep mappings rows) []

/-- `ConfigBasedInstructorReporter.group_by_course_section`: sections are
processed in `df[course_col].unique()` order (first occurrence). -/
def group_by_course_section (mappings : List (String × InstructorInfo)) (df : DataFrame) :
    List (String × GroupBundle) :=
  groupBySections mappings df.rows (uniqueFirst (df.rows.map MeetingRecord.course))

/-! ## Per-instructor statistics (weekly_instructor_reports.py) -/

structure SectionStat where
  meetings : Nat
  students : Nat
deriving DecidableEq, Repr

def insertAsc (p : Nat) : List Nat → List Nat
  | [] => [p]
  | q :: rest => if p ≤ q then p :: q :: rest else q :: insertAsc p rest

def sortAsc : List Nat → List Nat
  | [] => []
  | p :: rest => insertAsc p (sortAsc rest)

/-- `groupby(dt.date).size()`: per-date counts, dates ascending. -/
def dailyCounts (data : List MeetingRecord) : List (Nat × Nat) :=
  let dates := data.map (fun r => dateOfMinutes r.datetime)
  (sortAsc (uniqueFirst dates)).map (fun d => (d, countVal dates d))

/-- `idxmax()` over an ordered series: the key of the first maximal count. -/
def idxMaxFirst (l : List (Nat × Nat)) : Option Nat :=
  match l with
  | [] => none
  | p :: rest => some ((rest.foldl (fun best q => if best.2 < q.2 then q else best) p).1)

/-- Per-student meeting counts, descending, truncated to 5 (`head(5)`). -/
def topStudents (data : List MeetingRecord) : List ((String × String) × Nat) :=
  let pairs := data.map (fun r => (r.firstName, r.lastName))
  (sortByDesc (fun p => p.2) ((uniqueFirst pairs).map (fun v => (v, countVal pairs v)))).take 5

def sectionStatFor (data : List MeetingRecord) (s : String) : SectionStat :=
  { meetings := (secRecords data s).length
    students := distinctPairs (secRecords data s) }

structure InstructorStats where
  total_meetings : Nat
  unique_students : Nat
  sections : List String
  section_count : Nat
  course_name : String
  meeting_types : List (String × Nat)
  daily_counts : List (Nat × Nat)
  busiest_day : Option Nat
  avg_daily : Rat
  top_students : List ((String × String) × Nat)
  section_breakdown : List (String × SectionStat)
deriving DecidableEq, Repr

/-- `ConfigBasedInstructorReporter.generate_instructor_statistics`; the
source returns an empty dict `{}` for an empty bundle, modelled as `none`. -/
def generate_instructor_statistics (b : GroupBundle) : Option InstructorStats :=
  if b.data.isEmpty then none
  else
    some
      { total_meetings := b.data.length
        unique_students := b.unique_students
        sections := b.sections
        section_count := b.sections.length
        course_name := b.course_name
        meeting_types := valueCounts (b.data.map MeetingRecord.meetingType)
        daily_counts := dailyCounts b.data
        busiest_day := idxMaxFirst (dailyCounts b.data)
        avg_daily :=
          if 0 < (dailyCounts b.data).length then
            (b.data.length : Rat) / ((dailyCounts b.data).length : Rat)
          else 0
        top_students := topStudents b.data
        section_breakdown := b.sections.map (fun s => (s, sectionStatFor b.data s)) }

/-! ## send_instructor_email: transient-artifact lifetime (weekly_instructor_reports.py)

The local filesystem is a duplicate-free list of file names.  The SMTP
transaction is an external collaborator whose success is the boolean
`smtpOk`; when it fails the source catches the exception, logs, and returns
`False` — control never reaches the clean-up loop, which sits inside the
`try` block after `server.quit()`. -/

def writeFile (disk : List String) (name : String) : List String :=
  if name ∈ disk then disk else disk ++ [name]

/-- `if filename and os.path.exists(filename): os.remove(filename)`. -/
def removeIfExists (disk : List String) (name? : Option String) : List String :=
  match name? with
  | none => disk
  | some n => disk.filter (fun f => decide (f ≠ n))

/-- `ConfigBasedInstructorReporter.send_instructor_email` as a state
transformer on the filesystem.  `chart`/`wordcloud` are the artifact names
handed in (possibly `None`), `csvName` the per-instructor CSV name, written
only when `meetings_list` is non-empty.  Returns the final filesystem and
the boolean result of the method. -/
def send_instructor_email (disk : List String) (chart wordcloud : Option String)
    (csvName : String) (hasMeetings smtpOk : Bool) : List String × Bool :=
  let disk1 := if hasMeetings then writeFile disk csvName else disk
  if smtpOk then
    (removeIfExists (removeIfExists (removeIfExists disk1 chart) wordcloud) (some csvName), true)
  else (disk1, false)

/-! ## Shared sample data -/

def sampleRecord : MeetingRecord :=
  { datetime := 28422150, firstName := "Ann", lastName := "Lee", course := "A"
    meetingType := "Advising", topic := "HW help" }

def sampleEmptyDf : DataFrame := { rows := [], hasMeetingType := true, hasCourse := true, hasNames := true }

def sampleDf : DataFrame := { rows := [sampleRecord], hasMeetingType := true, hasCourse := true, hasNames := true }

/-! ## C1: the empty-record-set statistics dictionary -/

/-- The dictionary `generate_statistics` returns for an empty record set. -/
def emptyStatsDict : List (String × StatValue) :=
  [("total_meetings", .nat 0),
   ("semester_total", .nat 0),
   ("today_meetings", .nat 0),
   ("yesterday_meetings", .nat 0),
   ("this_week_meetings", .nat 0),
   ("last_7_days", .nat 0),
   ("avg_daily_meetings", .nat 0),
   ("avg_weekly_meetings", .nat 0),
   ("peak_hour", .str "N/A"),
   ("most_recent", .str "No data"),
   ("popular_meeting_type", .str "N/A"),
   ("active_courses", .nat 0),
   ("unique_students", .nat 0),
   ("semester_start", .str "N/A"),
   ("days_active", .nat 0)]

/-- The keys produced for every non-empty record set, in insertion order. -/
def nonEmptyStatKeys : List String :=
  ["semester_total", "semester_start", "semester_end", "days_active",
   "total_meetings", "today_meetings", "yesterday_meetings",
   "this_week_meetings", "last_7_days", "avg_daily_meetings",
   "avg_weekly_meetings", "peak_hour", "most_recent",
   "popular_meeting_type", "meeting_type_breakdown", "active_courses",
   "course_breakdown", "unique_students"]

/-- Claim C1, amended: for an empty (or `None`) record set
`generate_statistics` returns the fully sentinel-populated dictionary
`emptyStatsDict` (all numeric fields 0, descriptive fields "N/A"/"No data"),
and every one of its fields also appears for non-empty record sets; however
the empty-set field set is a strict subset of the non-empty one — the
non-empty dictionary additionally carries `semester_end`,
`meeting_type_breakdown` and `course_breakdown`, which the empty-set
dictionary omits. -/
theorem c1_empty_stats (now : Nat) (df dfN : DataFrame)
    (he : df.rows = []) (hn : dfN.rows ≠ []) :
    generate_statistics now df = emptyStatsDict ∧
    (generate_statistics now dfN).map Prod.fst = nonEmptyStatKeys ∧
    emptyStatsDict.all (fun p => nonEmptyStatKeys.contains p.1) = true := by
  obtain ⟨rows, a, b, c⟩ := df
  obtain ⟨rowsN, aN, bN, cN⟩ := dfN
  refine ⟨?_, ?_, by decide⟩
  · cases rows with
    | nil => rfl
    | cons r rest => exact absurd he (by simp)
  · cases rowsN with
    | nil => exact absurd rfl hn
    | cons r rest => cases aN <;> cases bN <;> cases cN <;> rfl

/-- Witness for C1 at a concrete empty and non-empty record set. -/
theorem c1_empty_stats_witness :
    generate_statistics 0 sampleEmptyDf = emptyStatsDict ∧
    (generate_statistics 0 sampleDf).map Prod.fst = nonEmptyStatKeys ∧
    emptyStatsDict.all (fun p => nonEmptyStatKeys.contains p.1) = true :=
  c1_empty_stats 0 sampleEmptyDf sampleDf rfl (by decide)

/-- Counterexample to C1 as stated: the set of fields produced for an empty
record set does not equal the set produced for a non-empty one —
`semester_end` (likewise `meeting_type_breakdown`, `course_breakdown`) is
present only in the non-empty output. -/
theorem c1_counterexample :
    (generate_statistics 0 sampleDf).map Prod.fst ≠
      (generate_statistics 0 sampleEmptyDf).map Prod.fst ∧
    "semester_end" ∈ (generate_statistics 0 sampleDf).map Prod.fst ∧
    "semester_end" ∉ (generate_statistics 0 sampleEmptyDf).map Prod.fst := by
  refine ⟨by decide, by decide, by decide⟩

/-! ## C2: days_active -/

/-- Claim C2, amended: `days_active` is
`floor((max timestamp − min timestamp) / 1 day) + 1` — a difference of raw
instants, not of calendar dates — for a non-empty record set, and `0` for an
empty one. -/
theorem c2_days_active (now : Nat) (df : DataFrame) :
    (df.rows = [] → statGet "days_active" (generate_statistics now df) = some (.nat 0)) ∧
    (df.rows ≠ [] →
      statGet "days_active" (generate_statistics now df) =
        some (.nat ((maxList (df.rows.map MeetingRecord.datetime) -
          minList (df.rows.map MeetingRecord.datetime)) / 1440 + 1))) := by
  obtain ⟨rows, a, b, c⟩ := df
  cases rows with
  | nil => exact ⟨fun _ => rfl, fun h => absurd rfl h⟩
  | cons r rest => exact ⟨fun h => absurd h (by simp), fun _ => rfl⟩

/-- Witness for C2 at a concrete non-empty record set. -/
theorem c2_days_active_witness :
    statGet "days_active" (generate_statistics 0 sampleDf) = some (.nat 1) :=
  (c2_days_active 0 sampleDf).2 (by decide)

/-- Two records on consecutive calendar dates two hours apart. -/
def cexDf : DataFrame :=
  { rows := [{ datetime := 1380, firstName := "", lastName := "", course := ""
               meetingType := "", topic := "" },
             { datetime := 1500, firstName := "", lastName := "", course := ""
               meetingType := "", topic := "" }]
    hasMeetingType := true, hasCourse := true, hasNames := true }

/-- Counterexample to C2 as stated: for records at 23:00 and next-day 01:00
the code yields `days_active = 1`, while the calendar-date formula of the
claim gives `(date max − date min) + 1 = 2`. -/
theorem c2_counterexample :
    statGet "days_active" (generate_statistics 9999 cexDf) = some (.nat 1) ∧
    (dateOfMinutes 1500 - dateOfMinutes 1380) + 1 = 2 ∧
    statGet "days_active" (generate_statistics 9999 cexDf) ≠ some (.nat 2) := by
  refine ⟨by decide, by decide, by decide⟩

/-! ## C9: unique_students -/

/-- Claim C9, amended: `unique_students` equals the number of distinct
concatenated full-name strings `first_name ++ " " ++ last_name` (not the
number of distinct `(first_name, last_name)` pairs), and `0` when the name
columns are unavailable. -/
theorem c9_unique_students (now : Nat) (df : DataFrame) (h : df.rows ≠ []) :
    statGet "unique_students" (generate_statistics now df) =
      some (.nat (if df.hasNames then distinctCount (df.rows.map fullName) else 0)) := by
  obtain ⟨rows, a, b, c⟩ := df
  cases rows with
  | nil => exact absurd rfl h
  | cons r rest => cases a <;> cases b <;> cases c <;> rfl

/-- Witness for C9 at a concrete record set. -/
theorem c9_unique_students_witness :
    statGet "unique_students" (generate_statistics 0 sampleDf) =
      some (.nat (if sampleDf.hasNames then distinctCount (sampleDf.rows.map fullName) else 0)) :=
  c9_unique_students 0 sampleDf (by decide)

/-- Two distinct `(first, last)` pairs whose space-concatenations coincide. -/
def pairDf : DataFrame :=
  { rows := [{ datetime := 0, firstName := "A B", lastName := "C", course := ""
               meetingType := "", topic := "" },
             { datetime := 0, firstName := "A", lastName := "B C", course := ""
               meetingType := "", topic := "" }]
    hasMeetingType := true, hasCourse := true, hasNames := true }

/-- Counterexample to C9 as stated: `("A B", "C")` and `("A", "B C")` are
distinct pairs but produce the same full-name string, so the code reports 1
unique student where the claim requires 2. -/
theorem c9_counterexample :
    statGet "unique_students" (generate_statistics 0 pairDf) = some (.nat 1) ∧
    distinctPairs pairDf.rows = 2 ∧
    (1 : Nat) ≠ 2 := by
  refine ⟨by decide, by decide, by decide⟩

/-! ## C6: fewer than two raw rows -/

/-- Claim C6: for every raw input with fewer than 2 rows (no header, or
header only) `load_data` returns the distinguishable `noDataRows` outcome
with an empty record set; being a total function, it raises nothing. -/
theorem c6_no_data_rows (values : List (List String)) (h : values.length < 2) :
    load_data values = .noDataRows ∧ (load_data values).records = [] := by
  have hv : load_data values = .noDataRows := by
    cases values with
    | nil => rfl
    | cons headers dataRows =>
      simp only [load_data]
      rw [if_pos h]
  exact ⟨hv, by rw [hv]; rfl⟩

/-- Witness for C6 on a header-only input. -/
theorem c6_no_data_rows_witness :
    load_data [["date", "time"]] = .noDataRows ∧
    (load_data [["date", "time"]]).records = [] :=
  c6_no_data_rows [["date", "time"]] (by decide)

/-! ## C4: transient-artifact cleanup -/

lemma mem_removeIfExists {disk : List String} {o : Option String} {n : String}
    (h : n ∈ removeIfExists disk o) : n ∈ disk ∧ some n ≠ o := by
  cases o with
  | none => exact ⟨h, by simp⟩
  | some m =>
    simp only [removeIfExists, List.mem_filter, decide_eq_true_eq] at h
    exact ⟨h.1, by simpa using h.2⟩

/-- Claim C4, amended: in `send_instructor_email` the generated artifacts
(chart, wordcloud, per-instructor CSV) are all removed only when the SMTP
send succeeds; when the send fails with a caught error the clean-up loop is
never reached, so the artifacts — including the CSV written earlier in the
same call — remain on disk. -/
theorem c4_cleanup (disk : List String) (chart wordcloud : Option String)
    (csvName : String) (hasMeetings : Bool) :
    (∀ n ∈ (send_instructor_email disk chart wordcloud csvName hasMeetings true).1,
        some n ≠ chart ∧ some n ≠ wordcloud ∧ n ≠ csvName) ∧
    (send_instructor_email disk chart wordcloud csvName hasMeetings false).1 =
      (if hasMeetings then writeFile disk csvName else disk) := by
  constructor
  · intro n hn
    have hn2 : n ∈ removeIfExists (removeIfExists (removeIfExists
        (if hasMeetings then writeFile disk csvName else disk) chart) wordcloud)
        (some csvName) := hn
    have h1 := mem_removeIfExists hn2
    have h2 := mem_removeIfExists h1.1
    have h3 := mem_removeIfExists h2.1
    refine ⟨h3.2, h2.2, ?_⟩
    have hcsv := h1.2
    simp only [ne_eq, Option.some.injEq] at hcsv
    exact hcsv
  · rfl

/-- Witness for C4 at concrete artifact names. -/
theorem c4_cleanup_witness :
    (∀ n ∈ (send_instructor_email ["chart.png", "wc.png"] (some "chart.png")
        (some "wc.png") "m.csv" true true).1,
        some n ≠ some "chart.png" ∧ some n ≠ some "wc.png" ∧ n ≠ "m.csv") ∧
    (send_instructor_email ["chart.png", "wc.png"] (some "chart.png")
        (some "wc.png") "m.csv" true false).1 =
      (if true then writeFile ["chart.png", "wc.png"] "m.csv" else ["chart.png", "wc.png"]) :=
  c4_cleanup ["chart.png", "wc.png"] (some "chart.png") (some "wc.png") "m.csv" true

/-- Counterexample to C4 as stated: when the send fails with a caught error,
the chart and wordcloud stay on disk and the freshly written CSV joins them —
generated files do remain after the per-recipient send completes. -/
theorem c4_counterexample :
    send_instructor_email ["chart.png", "wc.png"] (some "chart.png") (some "wc.png")
        "m.csv" true false = (["chart.png", "wc.png", "m.csv"], false) ∧
    "chart.png" ∈ (send_instructor_email ["chart.png", "wc.png"] (some "chart.png")
        (some "wc.png") "m.csv" true false).1 := by
  refine ⟨by decide, by decide⟩

/-! ## C3: today/yesterday counts for a record set within the last 24 hours -/

lemma count_two_dates (l : List MeetingRecord) (dnow : Nat) (h1 : 1 ≤ dnow)
    (h : ∀ r ∈ l, dateOfMinutes r.datetime = dnow ∨ dateOfMinutes r.datetime = dnow - 1) :
    l.countP (fun r => decide (dateOfMinutes r.datetime = dnow)) +
      l.countP (fun r => decide (dateOfMinutes r.datetime = dnow - 1)) = l.length := by
  induction l with
  | nil => simp
  | cons r t ih =>
    have hr := h r (by simp)
    have ht := ih (fun x hx => h x (by simp [hx]))
    rcases hr with hr | hr
    · have c1 : List.countP (fun r => decide (dateOfMinutes r.datetime = dnow)) (r :: t) =
          List.countP (fun r => decide (dateOfMinutes r.datetime = dnow)) t + 1 :=
        List.countP_cons_of_pos _ _ (decide_eq_true hr)
      have c2 : List.countP (fun r => decide (dateOfMinutes r.datetime = dnow - 1)) (r :: t) =
          List.countP (fun r => decide (dateOfMinutes r.datetime = dnow - 1)) t := by
        refine List.countP_cons_of_neg _ _ ?_
        simp only [decide_eq_true_eq, hr]
        omega
      rw [c1, c2, List.length_cons]
      omega
    · have c1 : List.countP (fun r => decide (dateOfMinutes r.datetime = dnow)) (r :: t) =
          List.countP (fun r => decide (dateOfMinutes r.datetime = dnow)) t := by
        refine List.countP_cons_of_neg _ _ ?_
        simp only [decide_eq_true_eq, hr]
        omega
      have c2 : List.countP (fun r => decide (dateOfMinutes r.datetime = dnow - 1)) (r :: t) =
          List.countP (fun r => decide (dateOfMinutes r.datetime = dnow - 1)) t + 1 :=
        List.countP_cons_of_pos _ _ (decide_eq_true hr)
      rw [c1, c2, List.length_cons]
      omega

lemma date_in_window (t now : Nat) (hle : t ≤ now) (hge : now ≤ t + 1440) :
    dateOfMinutes t = dateOfMinutes now ∨ dateOfMinutes t = dateOfMinutes now - 1 := by
  have ha : dateOfMinutes t ≤ dateOfMinutes now := Nat.div_le_div_right hle
  have hb : dateOfMinutes now ≤ dateOfMinutes t + 1 := by
    have h2 : now / 1440 ≤ (t + 1440) / 1440 := Nat.div_le_div_right hge
    rwa [Nat.add_div_right t (by norm_num)] at h2
  omega

/-- Claim C3, amended: fix an instant `now` (at least one day after the
epoch) and a record set whose timestamps all lie within the 24 hours
preceding `now`.  Then `today_meetings` counts exactly the records whose
calendar date is `now`'s date, `yesterday_meetings` those on the previous
date, and the two counts together cover the full record set — but
`today_meetings` alone need not equal the set size (records before midnight
fall on yesterday's date). -/
theorem c3_today_yesterday (now : Nat) (df : DataFrame) (h1 : 1440 ≤ now)
    (hin : ∀ r ∈ df.rows, r.datetime ≤ now ∧ now ≤ r.datetime + 1440) :
    statGet "today_meetings" (generate_statistics now df) =
      some (.nat (df.rows.countP (fun r => decide (dateOfMinutes r.datetime = dateOfMinutes now)))) ∧
    statGet "yesterday_meetings" (generate_statistics now df) =
      some (.nat (df.rows.countP (fun r => decide (dateOfMinutes r.datetime = dateOfMinutes now - 1)))) ∧
    df.rows.countP (fun r => decide (dateOfMinutes r.datetime = dateOfMinutes now)) +
      df.rows.countP (fun r => decide (dateOfMinutes r.datetime = dateOfMinutes now - 1)) =
      df.rows.length := by
  have hd1 : 1 ≤ dateOfMinutes now := by
    have : 1440 / 1440 ≤ now / 1440 := Nat.div_le_div_right h1
    simpa using this
  obtain ⟨rows, a, b, c⟩ := df
  have hcnt := count_two_dates rows (dateOfMinutes now) hd1
    (fun r hr => date_in_window r.datetime now (hin r hr).1 (hin r hr).2)
  cases rows with
  | nil => exact ⟨rfl, rfl, by simp⟩
  | cons r rest => exact ⟨rfl, rfl, hcnt⟩

/-- Witness for C3 at a concrete record set inside the window. -/
theorem c3_today_yesterday_witness :
    statGet "today_meetings" (generate_statistics 2000 (DataFrame.mk
        [{ datetime := 1900, firstName := "", lastName := "", course := ""
           meetingType := "", topic := "" }] true true true)) =
      some (.nat ((DataFrame.mk
        [{ datetime := 1900, firstName := "", lastName := "", course := ""
           meetingType := "", topic := "" }] true true true).rows.countP
          (fun r => decide (dateOfMinutes r.datetime = dateOfMinutes 2000)))) ∧
    statGet "yesterday_meetings" (generate_statistics 2000 (DataFrame.mk
        [{ datetime := 1900, firstName := "", lastName := "", course := ""
           meetingType := "", topic := "" }] true true true)) =
      some (.nat ((DataFrame.mk
        [{ datetime := 1900, firstName := "", lastName := "", course := ""
           meetingType := "", topic := "" }] true true true).rows.countP
          (fun r => decide (dateOfMinutes r.datetime = dateOfMinutes 2000 - 1)))) ∧
    (DataFrame.mk
        [{ datetime := 1900, firstName := "", lastName := "", course := ""
           meetingType := "", topic := "" }] true true true).rows.countP
        (fun r => decide (dateOfMinutes r.datetime = dateOfMinutes 2000)) +
      (DataFrame.mk
        [{ datetime := 1900, firstName := "", lastName := "", course := ""
           meetingType := "", topic := "" }] true true true).rows.countP
        (fun r => decide (dateOfMinutes r.datetime = dateOfMinutes 2000 - 1)) =
      (DataFrame.mk
        [{ datetime := 1900, firstName := "", lastName := "", course := ""
           meetingType := "", topic := "" }] true true true).rows.length :=
  c3_today_yesterday 2000 _ (by decide) (by decide)

/-- One record at 23:00, viewed from 01:00 the next day. -/
def lateDf : DataFrame :=
  { rows := [{ datetime := 1380, firstName := "", lastName := "", course := ""
               meetingType := "", topic := "" }]
    hasMeetingType := true, hasCourse := true, hasNames := true }

/-- Counterexample to C3 as stated: the record at 23:00 lies within the 24
hours preceding `now` = next-day 01:00, yet `today_meetings` is 0 (not the
set size 1) and `yesterday_meetings` is 1 (not 0). -/
theorem c3_counterexample :
    (1380 ≤ 1500 ∧ 1500 ≤ 1380 + 1440) ∧
    statGet "today_meetings" (generate_statistics 1500 lateDf) = some (.nat 0) ∧
    lateDf.rows.length = 1 ∧
    statGet "yesterday_meetings" (generate_statistics 1500 lateDf) = some (.nat 1) := by
  refine ⟨by decide, by decide, by decide, by decide⟩

/-! ## C5: strict-then-lenient parsing, rejection counting, totality -/

lemma parseDatetimeC_isNone (cs : List Char) :
    (parseDatetimeC cs).isNone = ((strictParseC cs).isNone && (flexParseC cs).isNone) := by
  unfold parseDatetimeC
  cases h : strictParseC cs <;> simp

lemma rejectedCount_eq (headers : List String) (dataRows : List (List String)) :
    rejectedCount headers dataRows =
      ((cleanedRows headers dataRows).filter (fun row =>
        (strictParse (rowCombined headers row)).isNone &&
        (flexParse (rowCombined headers row)).isNone)).length := by
  unfold rejectedCount parsedRows
  rw [List.filter_map]
  rw [List.length_map]
  congr 1
  refine List.filter_congr ?_
  intro row _
  exact parseDatetimeC_isNone (rowCombined headers row).data

lemma filterMap_add_filter_none (l : List (List String × Option Nat))
    (mk : List String → Nat → MeetingRecord) :
    (l.filterMap (fun p => p.2.map (mk p.1))).length +
      (l.filter (fun p => p.2.isNone)).length = l.length := by
  induction l with
  | nil => rfl
  | cons p rest ih =>
    obtain ⟨row, o⟩ := p
    cases o with
    | none =>
      simp only [List.filterMap_cons, List.filter_cons]
      simp
      omega
    | some t =>
      simp only [List.filterMap_cons, List.filter_cons]
      simp
      omega

lemma valid_plus_rejected (headers : List String) (dataRows : List (List String)) :
    (validRecords headers dataRows).length + rejectedCount headers dataRows =
      (cleanedRows headers dataRows).length := by
  have h1 := filterMap_add_filter_none (parsedRows headers dataRows) (mkRecord headers)
  have h2 : (parsedRows headers dataRows).length = (cleanedRows headers dataRows).length :=
    List.length_map _ _
  unfold validRecords rejectedCount
  rw [← h2]
  exact h1

/-- Claim C5: the strict primary-format parse is attempted first and its
result is final when it succeeds; the lenient parse is consulted exactly on
the values whose strict parse failed; a row failing both parses is excluded
from the records and counted as rejected (records + rejected = cleaned
rows); and the pipeline is a total function, so no value raises. -/
theorem c5_strict_then_lenient (s : String) (headers : List String)
    (dataRows : List (List String)) (recs : List MeetingRecord) (rej : Nat)
    (hld : load_data (headers :: dataRows) = .ok recs rej) :
    (∀ t, strictParse s = some t → parseDatetime s = some t) ∧
    (strictParse s = none → parseDatetime s = flexParse s) ∧
    rej = ((cleanedRows headers dataRows).filter (fun row =>
        (strictParse (rowCombined headers row)).isNone &&
        (flexParse (rowCombined headers row)).isNone)).length ∧
    recs.length + rej = (cleanedRows headers dataRows).length := by
  have hrec : recs = validRecords headers dataRows ∧ rej = rejectedCount headers dataRows := by
    simp only [load_data] at hld
    split at hld
    · exact absurd hld (by simp)
    · split at hld
      · exact absurd hld (by simp)
      · split at hld
        · exact absurd hld (by simp)
        · split at hld
          · exact absurd hld (by simp)
          · exact ⟨(LoadResult.ok.inj hld).1.symm, (LoadResult.ok.inj hld).2.symm⟩
  refine ⟨?_, ?_, ?_, ?_⟩
  · intro t h
    unfold parseDatetime parseDatetimeC
    unfold strictParse at h
    rw [h]
  · intro h
    unfold parseDatetime parseDatetimeC flexParse
    unfold strictParse at h
    rw [h]
  · rw [hrec.2, rejectedCount_eq]
  · rw [hrec.1, hrec.2, valid_plus_rejected]

/-- Witness for C5 on a concrete sheet with one parseable and one doubly
unparseable row. -/
theorem c5_strict_then_lenient_witness :
    (∀ t, strictParse "01/15/2024 14:30" = some t →
        parseDatetime "01/15/2024 14:30" = some t) ∧
    (strictParse "01/15/2024 14:30" = none →
        parseDatetime "01/15/2024 14:30" = flexParse "01/15/2024 14:30") ∧
    (1 : Nat) = ((cleanedRows ["date", "time"] [["01/15/2024", "14:30"], ["99/99/9999", "xx"]]).filter
        (fun row => (strictParse (rowCombined ["date", "time"] row)).isNone &&
          (flexParse (rowCombined ["date", "time"] row)).isNone)).length ∧
    ([{ datetime := 28422150, firstName := "", lastName := "", course := ""
        meetingType := "", topic := "" }] : List MeetingRecord).length + 1 =
      (cleanedRows ["date", "time"] [["01/15/2024", "14:30"], ["99/99/9999", "xx"]]).length :=
  c5_strict_then_lenient "01/15/2024 14:30" ["date", "time"]
    [["01/15/2024", "14:30"], ["99/99/9999", "xx"]]
    [{ datetime := 28422150, firstName := "", lastName := "", course := ""
       meetingType := "", topic := "" }] 1 (by decide)

/-! ## C7: empty time string parses to midnight -/

def headDigit : List Char → Bool
  | [] => false
  | c :: _ => c.isDigit

lemma takeDigits_stop : ∀ (cs l : List Char), (takeDigits cs).2 = [] → headDigit l = false →
    takeDigits (cs ++ l) = ((takeDigits cs).1, l) := by
  intro cs
  induction cs with
  | nil =>
    intro l _ hl
    cases l with
    | nil => rfl
    | cons c cs2 =>
      simp only [headDigit] at hl
      simp [takeDigits, hl]
  | cons c cs ih =>
    intro l h2 hl
    by_cases hc : c.isDigit
    · simp only [takeDigits, hc] at h2
      simp only [if_true] at h2
      have hr := ih l h2 hl
      simp [takeDigits, hc, List.cons_append, hr]
    · exfalso
      simp [takeDigits, hc] at h2

lemma takeDigits_more : ∀ (cs l : List Char), (takeDigits cs).2 ≠ [] →
    takeDigits (cs ++ l) = ((takeDigits cs).1, (takeDigits cs).2 ++ l) := by
  intro cs
  induction cs with
  | nil => intro l h; exact absurd rfl h
  | cons c cs ih =>
    intro l h2
    by_cases hc : c.isDigit
    · simp only [takeDigits, hc, if_true] at h2
      have hr := ih l h2
      simp [takeDigits, hc, List.cons_append, hr]
    · simp [takeDigits, hc, List.cons_append]

lemma parseDateC_append (cs l : List Char) (days : Nat)
    (h : parseDateC cs = some (days, [])) (hl : headDigit l = false) :
    parseDateC (cs ++ l) = some (days, l) := by
  rcases h1 : takeDigits cs with ⟨mds, r⟩
  unfold parseDateC at h
  rw [h1] at h
  cases r with
  | nil => simp at h
  | cons c1 r1 =>
    by_cases hc1 : c1 = '/'
    case neg => simp [hc1] at h
    case pos =>
      subst hc1
      simp only [reduceIte] at h
      rcases h2 : takeDigits r1 with ⟨dds, r2c⟩
      rw [h2] at h
      cases r2c with
      | nil => simp at h
      | cons c2 r2 =>
        by_cases hc2 : c2 = '/'
        case neg => simp [hc2] at h
        case pos =>
          subst hc2
          simp only [reduceIte] at h
          rcases h3 : takeDigits r2 with ⟨yds, rest⟩
          rw [h3] at h
          simp only [] at h
          by_cases hchk : checkDate mds dds yds
          case neg => simp [hchk] at h
          case pos =>
            rw [if_pos hchk] at h
            have hpair := Option.some.inj h
            have hdays := (Prod.mk.inj hpair).1
            have hrest := (Prod.mk.inj hpair).2
            have hg1 : takeDigits (cs ++ l) = (mds, '/' :: (r1 ++ l)) := by
              rw [takeDigits_more cs l (by rw [h1]; simp), h1]
              rfl
            have hg2 : takeDigits (r1 ++ l) = (dds, '/' :: (r2 ++ l)) := by
              rw [takeDigits_more r1 l (by rw [h2]; simp), h2]
              rfl
            have hg3 : takeDigits (r2 ++ l) = (yds, l) := by
              rw [takeDigits_stop r2 l (by rw [h3]; exact hrest) hl, h3]
            unfold parseDateC
            rw [hg1]
            simp only [reduceIte]
            rw [hg2]
            simp only [reduceIte]
            rw [hg3]
            rw [if_pos hchk, hdays]

/-- Claim C7: a row with a parseable primary-format date string and an empty
time string normalizes — via the `00:00` substitution and single-space
combination — to a record whose timestamp is the parsed date at midnight
(time-of-day `00:00`). -/
theorem c7_empty_time_midnight (d : String) (days : Nat)
    (h : parseDateC d.data = some (days, [])) :
    strictParse (combineDT d "") = some (days * 1440) ∧
    parseDatetime (combineDT d "") = some (days * 1440) ∧
    (days * 1440) % 1440 = 0 := by
  have hdata : (combineDT d "").data = d.data ++ (' ' :: "00:00".data) := by
    show (d ++ " " ++ "00:00").data = _
    rw [String.data_append, String.data_append]
    simp [List.append_assoc]
  have hpd : parseDateC ((combineDT d "").data) = some (days, ' ' :: "00:00".data) := by
    rw [hdata]
    exact parseDateC_append d.data (' ' :: "00:00".data) days h rfl
  have ht : parseTimeC ("00:00".data) = some (0, []) := by decide
  have hstrict : strictParse (combineDT d "") = some (days * 1440) := by
    unfold strictParse strictParseC
    rw [hpd]
    simp only [ht, Nat.add_zero]
  refine ⟨hstrict, ?_, Nat.mul_mod_left days 1440⟩
  unfold strictParse at hstrict
  unfold parseDatetime parseDatetimeC
  rw [hstrict]

/-- Witness for C7 at a concrete date string. -/
theorem c7_empty_time_midnight_witness :
    strictParse (combineDT "01/15/2024" "") = some (19737 * 1440) ∧
    parseDatetime (combineDT "01/15/2024" "") = some (19737 * 1440) ∧
    (19737 * 1440) % 1440 = 0 :=
  c7_empty_time_midnight "01/15/2024" 19737 (by decide)

/-! ## C8/C10: characterizing the grouping fold -/

/-- The record membership of instructor `k`'s bundle (`[]` when absent). -/
def bundleData (k : String) (g : List (String × GroupBundle)) : List MeetingRecord :=
  match lookupB k g with
  | some b => b.data
  | none => []

/-- The contributing sections of instructor `k`'s bundle (`[]` when absent). -/
def bundleSections (k : String) (g : List (String × GroupBundle)) : List String :=
  match lookupB k g with
  | some b => b.sections
  | none => []

/-- Section `s` contributes to instructor `k`: non-empty and configured for `k`. -/
def isFor (mappings : List (String × InstructorInfo)) (k : String) (s : String) : Bool :=
  !(s == "") &&
    (match getInstructorForSection mappings s with
     | some info => info.instructor == k
     | none => false)

lemma lookupB_upsert (acc : List (String × GroupBundle)) (q k : String)
    (f : GroupBundle → GroupBundle) (init : GroupBundle) :
    lookupB q (upsertB k f init acc) =
      if k = q then some (f ((lookupB k acc).getD init)) else lookupB q acc := by
  induction acc with
  | nil =>
    by_cases hq : k = q
    · subst hq
      simp [upsertB, lookupB]
    · simp [upsertB, lookupB, hq]
  | cons p rest ih =>
    obtain ⟨k1, b⟩ := p
    by_cases hk : k1 = k
    · subst hk
      by_cases hq : k1 = q
      · subst hq
        simp [upsertB, lookupB]
      · simp [upsertB, lookupB, hq]
    · by_cases hq : k1 = q
      · subst hq
        have hkq : ¬ k = k1 := fun hx => hk hx.symm
        simp [upsertB, lookupB, hk, hkq]
      · simp [upsertB, lookupB, hk, hq, ih]

lemma groupStep_effect (m : List (String × InstructorInfo)) (rows : List MeetingRecord)
    (acc : List (String × GroupBundle)) (s : String) (k : String) :
    bundleData k (groupStep m rows acc s) =
      bundleData k acc ++ (if isFor m k s then secRecords rows s else []) ∧
    bundleSections k (groupStep m rows acc s) =
      bundleSections k acc ++ (if isFor m k s then [s] else []) := by
  unfold bundleData bundleSections groupStep
  by_cases hs : s = ""
  · subst hs
    have hf : isFor m k "" = false := by simp [isFor]
    simp [hf]
  · rw [if_neg hs]
    cases hgi : getInstructorForSection m s with
    | none =>
      have hf : isFor m k s = false := by simp [isFor, hgi]
      simp [hf]
    | some info =>
      simp only []
      by_cases hk : info.instructor = k
      · rw [hk]
        have hf : isFor m k s = true := by simp [isFor, hs, hgi, hk]
        rw [hf]
        rw [lookupB_upsert acc k k (extendBundle s (secRecords rows s)) (newBundle info),
          if_pos rfl]
        cases hlk : lookupB k acc <;> simp [extendBundle, newBundle]
      · have hf : isFor m k s = false := by simp [isFor, hs, hgi, hk]
        rw [hf]
        rw [lookupB_upsert acc k info.instructor (extendBundle s (secRecords rows s))
          (newBundle info), if_neg hk]
        simp

lemma foldl_groupStep_effect (m : List (String × InstructorInfo)) (rows : List MeetingRecord) :
    ∀ (sections : List String) (acc : List (String × GroupBundle)) (k : String),
      bundleData k (sections.foldl (groupStep m rows) acc) =
        bundleData k acc ++ (sections.filter (isFor m k)).flatMap (secRecords rows) ∧
      bundleSections k (sections.foldl (groupStep m rows) acc) =
        bundleSections k acc ++ sections.filter (isFor m k) := by
  intro sections
  induction sections with
  | nil => intro acc k; simp
  | cons s ss ih =>
    intro acc k
    simp only [List.foldl_cons, List.filter_cons]
    obtain ⟨ihd, ihs⟩ := ih (groupStep m rows acc s) k
    obtain ⟨hsd, hss⟩ := groupStep_effect m rows acc s k
    rw [ihd, ihs, hsd, hss]
    by_cases hf : isFor m k s
    · simp [hf, List.append_assoc]
    · simp [hf]

lemma lookupB_groupStep_none (m : List (String × InstructorInfo)) (rows : List MeetingRecord)
    (acc : List (String × GroupBundle)) (s : String) (k : String) :
    (lookupB k (groupStep m rows acc s) = none ↔
      lookupB k acc = none ∧ isFor m k s = false) := by
  unfold groupStep
  by_cases hs : s = ""
  · subst hs
    have hf : isFor m k "" = false := by simp [isFor]
    simp [hf]
  · rw [if_neg hs]
    cases hgi : getInstructorForSection m s with
    | none =>
      have hf : isFor m k s = false := by simp [isFor, hgi]
      simp [hf]
    | some info =>
      simp only []
      by_cases hk : info.instructor = k
      · rw [hk]
        have hf : isFor m k s = true := by simp [isFor, hs, hgi, hk]
        rw [lookupB_upsert acc k k (extendBundle s (secRecords rows s)) (newBundle info),
          if_pos rfl, hf]
        simp
      · have hf : isFor m k s = false := by simp [isFor, hs, hgi, hk]
        rw [lookupB_upsert acc k info.instructor (extendBundle s (secRecords rows s))
          (newBundle info), if_neg hk, hf]
        simp

lemma lookupB_foldl_none (m : List (String × InstructorInfo)) (rows : List MeetingRecord) :
    ∀ (sections : List String) (acc : List (String × GroupBundle)) (k : String),
      (lookupB k (sections.foldl (groupStep m rows) acc) = none ↔
        lookupB k acc = none ∧ sections.filter (isFor m k) = []) := by
  intro sections
  induction sections with
  | nil => intro acc k; simp
  | cons s ss ih =>
    intro acc k
    simp only [List.foldl_cons, List.filter_cons]
    rw [ih (groupStep m rows acc s) k, lookupB_groupStep_none]
    by_cases hf : isFor m k s
    · simp [hf]
    · simp [hf]

lemma groupStep_inv (m : List (String × InstructorInfo)) (rows : List MeetingRecord)
    (acc : List (String × GroupBundle)) (s : String)
    (hacc : ∀ k b, lookupB k acc = some b →
      b.total_meetings = b.data.length ∧ b.unique_students = distinctPairs b.data) :
    ∀ k b, lookupB k (groupStep m rows acc s) = some b →
      b.total_meetings = b.data.length ∧ b.unique_students = distinctPairs b.data := by
  intro k b
  unfold groupStep
  by_cases hs : s = ""
  · subst hs
    simp only [if_pos rfl]
    exact hacc k b
  · rw [if_neg hs]
    cases hgi : getInstructorForSection m s with
    | none => exact hacc k b
    | some info =>
      simp only []
      rw [lookupB_upsert acc k info.instructor (extendBundle s (secRecords rows s))
        (newBundle info)]
      by_cases hk : info.instructor = k
      · rw [if_pos hk]
        intro hb
        have hb2 := Option.some.inj hb
        rw [← hb2]
        simp [extendBundle]
      · rw [if_neg hk]
        exact hacc k b

lemma foldl_groupStep_inv (m : List (String × InstructorInfo)) (rows : List MeetingRecord) :
    ∀ (sections : List String) (acc : List (String × GroupBundle)),
      (∀ k b, lookupB k acc = some b →
        b.total_meetings = b.data.length ∧ b.unique_students = distinctPairs b.data) →
      ∀ k b, lookupB k (sections.foldl (groupStep m rows) acc) = some b →
        b.total_meetings = b.data.length ∧ b.unique_students = distinctPairs b.data := by
  intro sections
  induction sections with
  | nil => intro acc hacc; exact hacc
  | cons s ss ih =>
    intro acc hacc
    simp only [List.foldl_cons]
    exact ih (groupStep m rows acc s) (groupStep_inv m rows acc s hacc)

lemma mem_uniqueFirstGo [DecidableEq α] :
    ∀ (l seen : List α) (x : α), x ∈ uniqueFirstGo l seen ↔ x ∈ l ∧ x ∉ seen := by
  intro l
  induction l with
  | nil => intro seen x; simp [uniqueFirstGo]
  | cons a l ih =>
    intro seen x
    by_cases ha : a ∈ seen
    · rw [uniqueFirstGo, if_pos ha, ih]
      simp only [List.mem_cons]
      constructor
      · rintro ⟨hx, hn⟩
        exact ⟨Or.inr hx, hn⟩
      · rintro ⟨hx | hx, hn⟩
        · exact absurd (by rw [hx]; exact ha) hn
        · exact ⟨hx, hn⟩
    · rw [uniqueFirstGo, if_neg ha]
      simp only [List.mem_cons, ih]
      constructor
      · rintro (rfl | ⟨hx, hn⟩)
        · exact ⟨Or.inl rfl, ha⟩
        · refine ⟨Or.inr hx, ?_⟩
          intro hxs
          exact hn (by simp [hxs])
      · rintro ⟨rfl | hx, hn⟩
        · exact Or.inl rfl
        · by_cases hxa : x = a
          · exact Or.inl hxa
          · exact Or.inr ⟨hx, by simp [hxa, hn]⟩

lemma nodup_uniqueFirstGo [DecidableEq α] :
    ∀ (l seen : List α), (uniqueFirstGo l seen).Nodup := by
  intro l
  induction l with
  | nil => intro seen; simp [uniqueFirstGo]
  | cons a l ih =>
    intro seen
    by_cases ha : a ∈ seen
    · rw [uniqueFirstGo, if_pos ha]
      exact ih seen
    · rw [uniqueFirstGo, if_neg ha]
      refine List.nodup_cons.mpr ⟨?_, ih (a :: seen)⟩
      intro hmem
      exact ((mem_uniqueFirstGo l (a :: seen) a).mp hmem).2 (by simp)

lemma uniqueFirst_nodup [DecidableEq α] (l : List α) : (uniqueFirst l).Nodup :=
  nodup_uniqueFirstGo l []

lemma mem_uniqueFirst [DecidableEq α] (l : List α) (x : α) :
    x ∈ uniqueFirst l ↔ x ∈ l := by
  rw [uniqueFirst, mem_uniqueFirstGo]
  simp

lemma sum_section_counts :
    ∀ (secs : List String) (data : List MeetingRecord), secs.Nodup →
      (∀ r ∈ data, r.course ∈ secs) →
      (secs.map (fun s => (secRecords data s).length)).sum = data.length := by
  intro secs
  induction secs with
  | nil =>
    intro data _ hall
    cases data with
    | nil => rfl
    | cons r t => exact absurd (hall r (by simp)) (by simp)
  | cons s ss ih =>
    intro data hnd hall
    have hsplit : (secRecords data s).length +
        (data.filter (fun r => !(decide (r.course = s)))).length = data.length := by
      unfold secRecords
      rw [← List.countP_eq_length_filter, ← List.countP_eq_length_filter]
      have halign : List.countP (fun r => !(decide (r.course = s))) data =
          List.countP (fun a => decide ¬((fun r => decide (r.course = s)) a = true)) data := by
        refine List.countP_congr ?_
        intro a _
        by_cases h : a.course = s <;> simp [h]
      rw [halign]
      exact (List.length_eq_countP_add_countP _ _).symm
    have hss : ∀ s2 ∈ ss, secRecords data s2 =
        secRecords (data.filter (fun r => !(decide (r.course = s)))) s2 := by
      intro s2 hs2
      have hneq : s2 ≠ s := by
        rintro rfl
        exact (List.nodup_cons.mp hnd).1 hs2
      unfold secRecords
      rw [List.filter_filter]
      refine List.filter_congr ?_
      intro r _
      by_cases hr : r.course = s2
      · have hrs : ¬ r.course = s := by rw [hr]; exact hneq
        simp [hr, hrs, hneq]
      · simp [hr]
    have hcov2 : ∀ r ∈ data.filter (fun r => !(decide (r.course = s))), r.course ∈ ss := by
      intro r hr
      rw [List.mem_filter] at hr
      have h1 := hall r hr.1
      have h2 : ¬ r.course = s := by simpa using hr.2
      simp only [List.mem_cons] at h1
      tauto
    have hih := ih (data.filter (fun r => !(decide (r.course = s))))
      (List.nodup_cons.mp hnd).2 hcov2
    rw [List.map_cons, List.sum_cons]
    rw [List.map_congr_left (fun s2 hs2 => by rw [hss s2 hs2])]
    rw [hih]
    exact hsplit

/-- Claim C8: grouping is commutative over section-processing order — for
any permutation of the distinct section keys, every instructor's bundle has
permutation-equal (multiset-equal) record membership and contributing
sections. -/
theorem c8_grouping_commutative (m : List (String × InstructorInfo))
    (rows : List MeetingRecord) (sections1 sections2 : List String)
    (hp : sections1.Perm sections2) (_hnd : sections1.Nodup) (k : String) :
    (bundleData k (groupBySections m rows sections1)).Perm
      (bundleData k (groupBySections m rows sections2)) ∧
    (bundleSections k (groupBySections m rows sections1)).Perm
      (bundleSections k (groupBySections m rows sections2)) := by
  have h1 := foldl_groupStep_effect m rows sections1 [] k
  have h2 := foldl_groupStep_effect m rows sections2 [] k
  unfold groupBySections
  rw [h1.1, h1.2, h2.1, h2.2]
  have hempty1 : bundleData k ([] : List (String × GroupBundle)) = [] := rfl
  have hempty2 : bundleSections k ([] : List (String × GroupBundle)) = [] := rfl
  rw [hempty1, hempty2]
  simp only [List.nil_append]
  exact ⟨(hp.filter (isFor m k)).flatMap_right (secRecords rows), hp.filter (isFor m k)⟩

def sampleMappings : List (String × InstructorInfo) :=
  [("A", { instructor := "X", email := "x@u.edu", course_name := "Chem" }),
   ("B", { instructor := "X", email := "x@u.edu", course_name := "Chem" }),
   ("C", { instructor := "Y", email := "y@u.edu", course_name := "Bio" })]

def sampleRows : List MeetingRecord :=
  [{ datetime := 10, firstName := "a", lastName := "b", course := "A", meetingType := "t", topic := "z" },
   { datetime := 20, firstName := "c", lastName := "d", course := "B", meetingType := "t", topic := "z" },
   { datetime := 30, firstName := "e", lastName := "f", course := "C", meetingType := "t", topic := "z" },
   { datetime := 40, firstName := "a", lastName := "b", course := "A", meetingType := "t", topic := "z" }]

/-- Witness for C8 at a concrete mapping, record set and two processing
orders. -/
theorem c8_grouping_commutative_witness :
    (bundleData "X" (groupBySections sampleMappings sampleRows ["A", "B", "C"])).Perm
      (bundleData "X" (groupBySections sampleMappings sampleRows ["C", "B", "A"])) ∧
    (bundleSections "X" (groupBySections sampleMappings sampleRows ["A", "B", "C"])).Perm
      (bundleSections "X" (groupBySections sampleMappings sampleRows ["C", "B", "A"])) :=
  c8_grouping_commutative sampleMappings sampleRows ["A", "B", "C"] ["C", "B", "A"]
    (by decide) (by decide) "X"

/-- Claim C10: every bundle produced by grouping has duplicate-free
sections, `total_meetings` equal to the number of records in its data, and
per-instructor statistics whose `section_breakdown` covers exactly the
bundle's sections with per-section meeting counts summing to
`total_meetings`. -/
theorem c10_bundle_invariants (m : List (String × InstructorInfo)) (df : DataFrame)
    (k : String) (b : GroupBundle)
    (h : lookupB k (group_by_course_section m df) = some b) :
    b.sections.Nodup ∧
    b.total_meetings = b.data.length ∧
    ∃ st, generate_instructor_statistics b = some st ∧
      st.total_meetings = b.data.length ∧
      st.section_breakdown.map Prod.fst = b.sections ∧
      (st.section_breakdown.map (fun p => p.2.meetings)).sum = b.total_meetings := by
  set S := uniqueFirst (df.rows.map MeetingRecord.course) with hSdef
  have hfold := foldl_groupStep_effect m df.rows S [] k
  have hGB : S.foldl (groupStep m df.rows) [] = group_by_course_section m df := rfl
  have hbd : bundleData k (S.foldl (groupStep m df.rows) []) = b.data := by
    unfold bundleData
    rw [hGB, h]
  have hbs : bundleSections k (S.foldl (groupStep m df.rows) []) = b.sections := by
    unfold bundleSections
    rw [hGB, h]
  have hdata : b.data = (S.filter (isFor m k)).flatMap (secRecords df.rows) := by
    rw [← hbd, hfold.1]
    rfl
  have hsecs : b.sections = S.filter (isFor m k) := by
    rw [← hbs, hfold.2]
    rfl
  have hnd : b.sections.Nodup := by
    rw [hsecs]
    exact (uniqueFirst_nodup _).filter _
  have htot := foldl_groupStep_inv m df.rows S []
    (by intro k2 b2 hb2; simp [lookupB] at hb2) k b (by rw [hGB]; exact h)
  have hfne : S.filter (isFor m k) ≠ [] := by
    intro h0
    have hnone := (lookupB_foldl_none m df.rows S [] k).mpr ⟨rfl, h0⟩
    rw [hGB, h] at hnone
    exact absurd hnone (by simp)
  have hne : b.data ≠ [] := by
    rw [hdata]
    rcases hfilter : S.filter (isFor m k) with _ | ⟨s0, srest⟩
    · exact absurd hfilter hfne
    · have hs0S : s0 ∈ S := by
        have hmem : s0 ∈ S.filter (isFor m k) := by rw [hfilter]; simp
        exact (List.mem_filter.mp hmem).1
      have hs0rows : s0 ∈ df.rows.map MeetingRecord.course := (mem_uniqueFirst _ _).mp hs0S
      obtain ⟨r, hrmem, hrc⟩ := List.mem_map.mp hs0rows
      intro habs
      have hrin : r ∈ (s0 :: srest).flatMap (secRecords df.rows) := by
        refine List.mem_flatMap.mpr ⟨s0, by simp, ?_⟩
        unfold secRecords
        rw [List.mem_filter]
        exact ⟨hrmem, by simp [hrc]⟩
      rw [habs] at hrin
      exact absurd hrin (by simp)
  have hcov : ∀ r ∈ b.data, r.course ∈ b.sections := by
    intro r hr
    rw [hdata] at hr
    obtain ⟨s1, hs1, hrs1⟩ := List.mem_flatMap.mp hr
    have hrc : r.course = s1 := by
      unfold secRecords at hrs1
      rw [List.mem_filter] at hrs1
      exact of_decide_eq_true hrs1.2
    rw [hsecs, hrc]
    exact hs1
  have hempty : b.data.isEmpty = false := by
    cases hbd2 : b.data with
    | nil => exact absurd hbd2 hne
    | cons r t => rfl
  refine ⟨hnd, htot.1, ?_⟩
  unfold generate_instructor_statistics
  rw [hempty]
  refine ⟨_, rfl, rfl, ?_, ?_⟩
  · rw [List.map_map]
    have hid : (Prod.fst ∘ fun s => (s, sectionStatFor b.data s)) = id := rfl
    rw [hid, List.map_id]
  · rw [List.map_map]
    have hmap : (b.sections.map ((fun p => p.2.meetings) ∘
        (fun s => (s, sectionStatFor b.data s)))) =
        b.sections.map (fun s => (secRecords b.data s).length) := rfl
    rw [hmap, sum_section_counts b.sections b.data hnd hcov, htot.1]

def sampleGroupDf : DataFrame :=
  { rows := sampleRows, hasMeetingType := true, hasCourse := true, hasNames := true }

/-- The bundle the sample grouping produces for instructor `X`. -/
def sampleBundleX : GroupBundle :=
  { email := "x@u.edu", course_name := "Chem", sections := ["A", "B"]
    data := [{ datetime := 10, firstName := "a", lastName := "b", course := "A",
               meetingType := "t", topic := "z" },
             { datetime := 40, firstName := "a", lastName := "b", course := "A",
               meetingType := "t", topic := "z" },
             { datetime := 20, firstName := "c", lastName := "d", course := "B",
               meetingType := "t", topic := "z" }]
    total_meetings := 3, unique_students := 2 }

/-- Witness for C10 at a concrete grouping. -/
theorem c10_bundle_invariants_witness :
    sampleBundleX.sections.Nodup ∧
    sampleBundleX.total_meetings = sampleBundleX.data.length ∧
    ∃ st, generate_instructor_statistics sampleBundleX = some st ∧
      st.total_meetings = sampleBundleX.data.length ∧
      st.section_breakdown.map Prod.fst = sampleBundleX.sections ∧
      (st.section_breakdown.map (fun p => p.2.meetings)).sum = sampleBundleX.total_meetings :=
  c10_bundle_invariants sampleMappings sampleGroupDf "X" sampleBundleX (by decide)
